import Mathlib

/-!
Shallow embedding of the BotCheck analysis engine (`src/analyzer/`).

Conventions used throughout this development:
* Python floats are modelled as exact rationals (`ℚ`); the only genuinely
  irrational operation in the source is `** 0.5` (square root) inside three
  coefficient-of-variation computations, which is modelled by `Real.sqrt`,
  making those three sub-scores (and the composites containing them) `ℝ`-valued.
* Message and profile records are duck-typed in Python (attribute objects or
  dicts); they are modelled by a single `Msg` / `UserInfo` structure whose
  `Option` fields stand for present/absent fields.
* Python identifiers (author ids, mention ids, channel ids) may be ints or
  strings; they are modelled by the sum type `Uid`, with `Uid.str` modelling
  Python's `str(...)` and `Uid.truthy` modelling Python truthiness.
* `datetime` values are modelled by their POSIX timestamp (`ℚ` seconds);
  `datetime.fromtimestamp` is modelled in UTC.
* `round(x, 2)` is modelled by `round (100 * x) / 100`; Mathlib's `round` is
  round-half-up while Python rounds ties to even, but no value in any theorem
  below falls on a tie.
-/

/-- Identifier value: Python ints or strings used as author/channel/mention ids. -/
inductive Uid where
  | iv : ℤ → Uid
  | sv : String → Uid
deriving DecidableEq, Repr

/-- Python `str(...)` applied to an identifier. -/
def Uid.str : Uid → String
  | .iv n => toString n
  | .sv s => s

/-- Python truthiness of an identifier (`0` and `""` are falsy). -/
def Uid.truthy : Uid → Bool
  | .iv n => n != 0
  | .sv s => s != ""

/-- A message record. Duck-typed Python message objects/dicts are modelled by
one structure; an `Option` field models an absent (or `None`) field. -/
structure Msg where
  content : List Char
  created_at : Option ℚ
  timestamp : Option ℚ
  author_id : Option Uid
  channel_id : Option Uid
  mentions : List Uid
  reactions : List String
  edited_at : Option ℚ
  is_reply : Bool
  reply_delay_seconds : Option ℚ
deriving DecidableEq

/-- A message with every field absent/empty; concrete messages are built from
it with record updates. -/
def msg0 : Msg :=
  { content := [], created_at := none, timestamp := none, author_id := none,
    channel_id := none, mentions := [], reactions := [], edited_at := none,
    is_reply := false, reply_delay_seconds := none }

/-- A user profile record (`user_info` dict in the source). -/
structure UserInfo where
  created_at : Option ℚ
  avatar : Option String
  username : List Char
  status : Option String
  activities : List String
  custom_status : Option String
deriving DecidableEq

/-- A profile with every field absent/empty. -/
def user0 : UserInfo :=
  { created_at := none, avatar := none, username := [], status := none,
    activities := [], custom_status := none }

/-- Axis weights (engine `self.weights`), with all six recognized keys present. -/
structure Weights where
  timing : ℚ
  style : ℚ
  behavior : ℚ
  ai : ℚ
  profile : ℚ
  network : ℚ
deriving DecidableEq

/-- The default weights from `AnalysisEngine.__init__`. -/
def default_weights : Weights :=
  { timing := 0.20, style := 0.20, behavior := 0.20, ai := 0.15,
    profile := 0.15, network := 0.10 }

/-- Python `sum(w.values())`. -/
def Weights.sum (w : Weights) : ℚ :=
  w.timing + w.style + w.behavior + w.ai + w.profile + w.network

/-- Pointwise scaling of a weight mapping by a scalar. -/
def Weights.smul (c : ℚ) (w : Weights) : Weights :=
  { timing := c * w.timing, style := c * w.style, behavior := c * w.behavior,
    ai := c * w.ai, profile := c * w.profile, network := c * w.network }

/-- The weight mapping renormalized so its values sum to 1. -/
def Weights.normalize (w : Weights) : Weights :=
  { timing := w.timing / w.sum, style := w.style / w.sum,
    behavior := w.behavior / w.sum, ai := w.ai / w.sum,
    profile := w.profile / w.sum, network := w.network / w.sum }

/-! ### Numeric utilities (`statistics` module, `_clamp`, `round`) -/

/-- `_clamp(value)` = `max(0.0, min(100.0, value))` (engine/behavior/network/profile). -/
def clamp (v : ℚ) : ℚ := max 0 (min 100 v)

/-- `statistics.mean` (callers guarantee a nonempty list). -/
def mean (l : List ℚ) : ℚ := l.sum / l.length

/-- `statistics.variance` — sample variance with denominator `n - 1`
(callers guarantee at least two samples). -/
def sample_variance (l : List ℚ) : ℚ :=
  (l.map (fun x => (x - mean l) ^ 2)).sum / ((l.length : ℚ) - 1)

/-- `round(x, 2)` on a rational. -/
def round2 (x : ℚ) : ℚ := (round (100 * x) : ℤ) / 100

/-- `round(x, 2)` on a real. -/
noncomputable def round2R (x : ℝ) : ℝ := ((round (100 * x) : ℤ) : ℝ) / 100

/-! ### Character classes and text helpers (`re` patterns shared by analyzers) -/

/-- Python whitespace characters recognized by `str.strip` / `\s`. -/
def is_space_char (c : Char) : Bool :=
  c == ' ' || c == '\t' || c == '\n' || c == '\r' || c.toNat == 11 || c.toNat == 12

/-- A character matched by the source's `word_pattern`
`[\w぀-ヿ一-鿿]`. Unicode `\w` is modelled by ASCII
alphanumerics plus underscore (the only word characters outside the two
explicit CJK ranges that the repository's data exercises). -/
def is_word_char (c : Char) : Bool :=
  c.isAlphanum || c == '_' ||
    (0x3040 ≤ c.toNat && c.toNat ≤ 0x30FF) || (0x4E00 ≤ c.toNat && c.toNat ≤ 0x9FFF)

/-- A character matched by the source's `emoji_pattern` (the union of the
eleven code-point ranges in `style.py`; note the last range `24C2–1F251`
subsumes most of the others and all CJK text). -/
def is_emoji_char (c : Char) : Bool :=
  (0x1F600 ≤ c.toNat && c.toNat ≤ 0x1F64F) || (0x1F300 ≤ c.toNat && c.toNat ≤ 0x1F5FF) ||
  (0x1F680 ≤ c.toNat && c.toNat ≤ 0x1F6FF) || (0x1F700 ≤ c.toNat && c.toNat ≤ 0x1F77F) ||
  (0x1F780 ≤ c.toNat && c.toNat ≤ 0x1F7FF) || (0x1F800 ≤ c.toNat && c.toNat ≤ 0x1F8FF) ||
  (0x1F900 ≤ c.toNat && c.toNat ≤ 0x1F9FF) || (0x1FA00 ≤ c.toNat && c.toNat ≤ 0x1FA6F) ||
  (0x1FA70 ≤ c.toNat && c.toNat ≤ 0x1FAFF) || (0x2702 ≤ c.toNat && c.toNat ≤ 0x27B0) ||
  (0x24C2 ≤ c.toNat && c.toNat ≤ 0x1F251)

/-- A character matched by `sentence_endings` `[.!?。！？]+`. -/
def is_sentence_end_char (c : Char) : Bool :=
  c == '.' || c == '!' || c == '?' || c == '。' || c == '！' || c == '？'

/-- `str.strip()`. -/
def strip (l : List Char) : List Char :=
  ((l.dropWhile is_space_char).reverse.dropWhile is_space_char).reverse

/-- Python `str.lower()` (ASCII case folding; the repository's non-ASCII text
is Japanese, which has no case). -/
def lower (l : List Char) : List Char := l.map Char.toLower

/-- Helper for `runs_by`: accumulates the current run (reversed). -/
def runs_by_aux (p : Char → Bool) : List Char → List Char → List (List Char)
  | cur, [] => if cur = [] then [] else [cur.reverse]
  | cur, c :: rest =>
      if p c then runs_by_aux p (c :: cur) rest
      else if cur = [] then runs_by_aux p [] rest
      else cur.reverse :: runs_by_aux p [] rest

/-- Maximal runs of characters satisfying `p` — models `re.findall` of a
character-class pattern such as `word_pattern` or `emoji_pattern`. -/
def runs_by (p : Char → Bool) (l : List Char) : List (List Char) :=
  runs_by_aux p [] l

/-- `word_pattern.findall(text)`. -/
def word_tokens (l : List Char) : List (List Char) := runs_by is_word_char l

/-- Sentence splitting as done throughout the source:
`[s.strip() for s in sentence_endings.split(text) if s.strip()]`. -/
def split_sentences (l : List Char) : List (List Char) :=
  ((runs_by (fun c => !is_sentence_end_char c) l).map strip).filter (fun s => s ≠ [])

/-- Python `' '.join(contents)`. -/
def join_spaces (contents : List (List Char)) : List Char :=
  List.intercalate [' '] contents

/-- `extract_content(msg)`: `str(content).strip()` (`utils.py`). -/
def extract_content (m : Msg) : List Char := strip m.content

/-- `extract_contents(messages, min_length)` (`utils.py`): stripped contents
that are truthy and longer than `min_length`. -/
def extract_contents (messages : List Msg) (min_length : ℕ) : List (List Char) :=
  (messages.map extract_content).filter (fun c => c ≠ [] ∧ min_length < c.length)

/-- `_content(msg)` from `behavior.py`: the content string, or `""` if falsy. -/
def content_of (m : Msg) : List Char := m.content

/-! ### TimingAnalyzer (`timing.py`) -/

/-- `TimingAnalyzer._extract_timestamp`: `created_at` when truthy (a numeric
`0` is falsy in Python and falls through), else the `timestamp` field. -/
def extract_timestamp (m : Msg) : Option ℚ :=
  match m.created_at with
  | some t => if t = 0 then m.timestamp else some t
  | none => m.timestamp

/-- `TimingAnalyzer._calculate_intervals`: positive consecutive gaps between
sorted timestamps. -/
def calc_intervals (messages : List Msg) : List ℚ :=
  let ts := (messages.filterMap extract_timestamp).insertionSort (· ≤ ·)
  if ts.length < 2 then []
  else ((ts.zip ts.tail).map (fun p => p.2 - p.1)).filter (fun d => 0 < d)

/-- `TimingAnalyzer._analyze_interval_regularity`. `statistics.stdev` is the
square root of the sample variance; the `StatisticsError` branch is
unreachable because the function is only applied to lists of length ≥ 2. -/
noncomputable def analyze_interval_regularity (messages : List Msg) : ℝ :=
  let intervals := calc_intervals messages
  if intervals.length < 2 then 50
  else
    let mean_interval := mean intervals
    if mean_interval ≤ 0 then 50
    else
      let std_interval : ℝ := Real.sqrt ((sample_variance intervals : ℚ) : ℝ)
      let cv : ℝ := std_interval / (mean_interval : ℚ)
      if cv < 0.2 then min (80 + (0.2 - cv) * 300) 100
      else max 5 (40 - cv * 60)

/-- `TimingAnalyzer._is_reply_to_mention`: distinct truthy authors and the
second author among the first message's mentions (raw Python `==` equality on
ids, not string equality). -/
def is_reply_to_mention (m1 m2 : Msg) : Bool :=
  match m1.author_id, m2.author_id with
  | some a1, some a2 =>
      if !a1.truthy || !a2.truthy || a1 = a2 then false
      else if m1.mentions ≠ [] then a2 ∈ m1.mentions else false
  | _, _ => false

/-- `TimingAnalyzer._get_time_difference`: the positive gap between the two
messages' timestamps, when both are present and truthy. -/
def get_time_difference (m1 m2 : Msg) : Option ℚ :=
  match extract_timestamp m1, extract_timestamp m2 with
  | some t1, some t2 => if t1 ≠ 0 ∧ t2 ≠ 0 ∧ t1 < t2 then some (t2 - t1) else none
  | _, _ => none

/-- The adjacent message pairs detected as mention replies by
`_analyze_reply_speed`'s loop. -/
def reply_pairs (messages : List Msg) : List (Msg × Msg) :=
  (messages.zip messages.tail).filter (fun p => is_reply_to_mention p.1 p.2)

/-- The reply pairs whose (truthy) time difference is under 30 seconds. -/
def rapid_pairs (messages : List Msg) : List (Msg × Msg) :=
  (reply_pairs messages).filter (fun p =>
    match get_time_difference p.1 p.2 with
    | some d => d ≠ 0 ∧ d < 30
    | none => False)

/-- `TimingAnalyzer._analyze_reply_speed`: share of mention-reply pairs
answered in under 30 seconds, mapped to `min(50 + ratio * 400, 100)`. -/
def analyze_reply_speed (messages : List Msg) : ℚ :=
  if messages.length < 4 then 50
  else
    if (reply_pairs messages).length = 0 then 50
    else min (50 + (((rapid_pairs messages).length : ℚ) /
      (reply_pairs messages).length) * 400) 100

/-- Hour of day of a POSIX timestamp (`datetime.fromtimestamp(ts).hour`,
modelled in UTC). -/
def hour_of (t : ℚ) : ℤ := (⌊t / 3600⌋ : ℤ) % 24

/-- Weekday of a POSIX timestamp (`.weekday()`, Monday = 0; the epoch day was
a Thursday). -/
def weekday_of (t : ℚ) : ℤ := ((⌊t / 86400⌋ : ℤ) + 3) % 7

/-- `TimingAnalyzer._calculate_distribution_uniformity`: a chi-square-style
uniformity measure over the multiset of bucket keys `l`. -/
def distribution_uniformity (l : List ℤ) (expected_bins : ℚ) : ℚ :=
  if l = [] then 0
  else
    let counts : List ℚ := l.dedup.map (fun k => (l.count k : ℚ))
    let total : ℚ := l.length
    let e := total / expected_bins
    let chi := (counts.map (fun c => (c - e) ^ 2 / e)).sum
    1 - min (chi / total) 1

/-- `TimingAnalyzer._analyze_activity_patterns`. -/
def analyze_activity_patterns (messages : List Msg) : ℚ :=
  if messages.length < 10 then 50
  else
    let ts := messages.filterMap extract_timestamp
    let hour_uniformity := distribution_uniformity (ts.map hour_of) 24
    let day_uniformity := distribution_uniformity (ts.map weekday_of) 7
    min (50 + ((hour_uniformity + day_uniformity) / 2) * 150) 100

/-- `TimingAnalyzer.analyze_timing`: the weighted composite
`0.4 * interval + 0.3 * reply_speed + 0.3 * activity`, clamped. -/
noncomputable def analyze_timing (messages : List Msg) : ℝ :=
  if messages.length < 3 then 50
  else
    let total : ℝ := analyze_interval_regularity messages * 0.4 +
      ((analyze_reply_speed messages : ℚ) : ℝ) * 0.3 +
      ((analyze_activity_patterns messages : ℚ) : ℝ) * 0.3
    min (max total 0) 100

/-! ### StyleAnalyzer (`style.py`) -/

/-- The fixed Japanese template phrase list (`jp_template_phrases`). -/
def jp_template_phrases : List (List Char) :=
  ["ご質問ありがとうございます".toList, "お忙しい中ありがとうございます".toList,
   "承知いたしました".toList, "失礼いたします".toList, "お疲れさまでした".toList,
   "よろしくお願いします".toList, "ご確認ください".toList, "お世話になっております".toList]

/-- The polite sentence-ending literals of `style.py`'s `jp_polite_endings`. -/
def jp_polite_suffixes : List (List Char) :=
  ["です".toList, "ます".toList, "でした".toList, "ました".toList,
   "ません".toList, "でしょう".toList, "ございます".toList, "いたします".toList]

/-- `pattern.search(s)` for an anchored suffix alternation `(a|b|...)$`. -/
def ends_with_any (suffixes : List (List Char)) (s : List Char) : Bool :=
  suffixes.any (fun p => p.isSuffixOf s)

/-- `phrase in text` (substring containment). -/
def contains_phrase (text phrase : List Char) : Bool := decide (phrase <:+: text)

/-- `StyleAnalyzer._analyze_vocabulary_diversity`. -/
def analyze_vocabulary_diversity (contents : List (List Char)) : ℚ :=
  let tokens := word_tokens (lower (join_spaces contents))
  if tokens.length < 10 then 50
  else
    let ttr : ℚ := (tokens.dedup.length : ℚ) / tokens.length
    if ttr < 0.3 then min (70 + (0.3 - ttr) * 100) 100
    else max 10 (50 - (ttr - 0.3) * 60)

/-- Character lengths of all sentences of all contents (as in
`_analyze_sentence_length_variance`). -/
def sentence_lengths (contents : List (List Char)) : List ℚ :=
  ((contents.map split_sentences).flatten).map (fun s => (s.length : ℚ))

/-- `StyleAnalyzer._analyze_sentence_length_variance` (`cv = sqrt(variance)/mean`;
the `StatisticsError` branch is unreachable for ≥ 5 samples). -/
noncomputable def analyze_sentence_length_variance (contents : List (List Char)) : ℝ :=
  let lens := sentence_lengths contents
  if lens.length < 5 then 50
  else
    let variance := sample_variance lens
    let mean_length := mean lens
    if mean_length = 0 then 50
    else
      let cv : ℝ := Real.sqrt ((variance : ℚ) : ℝ) / ((mean_length : ℚ) : ℝ)
      if cv < 0.3 then min (60 + (0.3 - cv) * 100) 100
      else max 20 (50 - (cv - 0.3) * 40)

/-- `StyleAnalyzer._analyze_template_phrases`. -/
def analyze_template_phrases (contents : List (List Char)) : ℚ :=
  let template_count :=
    (contents.filter (fun t =>
      jp_template_phrases.any (fun p => contains_phrase (lower t) (lower p)))).length
  if contents.length = 0 then 50
  else min (((template_count : ℚ) / contents.length) * 150) 100

/-- Number of emoji runs per content (`emoji_pattern.findall` lengths). -/
def emoji_counts_of (contents : List (List Char)) : List ℚ :=
  contents.map (fun t => ((runs_by is_emoji_char t).length : ℚ))

/-- Number of contents containing at least one emoji run. -/
def with_emoji_of (contents : List (List Char)) : ℕ :=
  ((emoji_counts_of contents).filter (fun c => 0 < c)).length

/-- `StyleAnalyzer._analyze_emoji_patterns`. The source compares
`cv = variance ** 0.5 / (mean + 0.1) < 0.3`; since both sides are nonnegative
in the reachable branch (`mean > 0`), this is equivalently stated as
`variance < (0.3 * (mean + 0.1))^2`, keeping the definition computable. -/
def analyze_emoji_patterns (contents : List (List Char)) : ℚ :=
  if contents = [] then 50
  else
    let emoji_counts := emoji_counts_of contents
    if with_emoji_of contents = 0 then 75
    else if 2 < emoji_counts.length then
      let mean_emoji := mean emoji_counts
      if 0 < mean_emoji then
        if sample_variance emoji_counts < (0.3 * (mean_emoji + 0.1)) ^ 2 then 65 else 25
      else 35
    else 35

/-- `StyleAnalyzer._analyze_politeness_consistency`. -/
def analyze_politeness_consistency (contents : List (List Char)) : ℚ :=
  let sentences := (contents.map split_sentences).flatten
  let total_sentences := sentences.length
  let polite_sentences := (sentences.filter (ends_with_any jp_polite_suffixes)).length
  if total_sentences = 0 then 50
  else
    let polite_ratio : ℚ := (polite_sentences : ℚ) / total_sentences
    if 0.9 < polite_ratio then min (60 + (polite_ratio - 0.9) * 400) 100
    else if polite_ratio < 0.1 then 70
    else 25

/-- `StyleAnalyzer._analyze_punctuation_patterns` (the "perfect punctuation"
test can never succeed because sentence splitting removes the `。` that
`endswith('。')` looks for; the source is modelled as written). -/
def analyze_punctuation_patterns (contents : List (List Char)) : ℚ :=
  let sentences := (contents.map split_sentences).flatten
  let total_sentences := sentences.length
  let perfect := (sentences.filter (fun s =>
    ['。'].isSuffixOf s && contains_phrase s ['、'])).length
  if total_sentences = 0 then 50
  else
    let perfect_ratio : ℚ := (perfect : ℚ) / total_sentences
    if 0.8 < perfect_ratio then 60 + perfect_ratio * 40
    else 30

/-- `StyleAnalyzer.analyze_style`: six-way weighted composite with the 1.05
sensitivity boost, clamped. -/
noncomputable def analyze_style (messages : List Msg) : ℝ :=
  if messages = [] then 50
  else
    let contents := extract_contents messages 0
    if contents.length < 3 then 50
    else
      let total : ℝ :=
        (((analyze_vocabulary_diversity contents : ℚ) : ℝ) * 0.25 +
         analyze_sentence_length_variance contents * 0.2 +
         ((analyze_template_phrases contents : ℚ) : ℝ) * 0.2 +
         ((analyze_emoji_patterns contents : ℚ) : ℝ) * 0.15 +
         ((analyze_politeness_consistency contents : ℚ) : ℝ) * 0.1 +
         ((analyze_punctuation_patterns contents : ℚ) : ℝ) * 0.1) * 1.05
      min (max total 0) 100

/-! ### BehaviorAnalyzer (`behavior.py`) -/

/-- All outgoing mention ids of a batch, as strings, in message order
(`str(m.id if hasattr(m, "id") else m)` for each mention of each message). -/
def behavior_mention_strs (messages : List Msg) : List String :=
  messages.flatMap (fun m => m.mentions.map Uid.str)

/-- Total number of outgoing mentions in the batch. -/
def mention_total_of (messages : List Msg) : ℕ := (behavior_mention_strs messages).length

/-- The count of the most-mentioned single target. -/
def mention_max_of (messages : List Msg) : ℕ :=
  let strs := behavior_mention_strs messages
  (strs.dedup.map (fun k => strs.count k)).foldl max 0

/-- The share of all mentions directed at the most-mentioned target. -/
def mention_conc_of (messages : List Msg) : ℚ :=
  (mention_max_of messages : ℚ) / (mention_total_of messages : ℚ)

/-- `BehaviorAnalyzer._analyze_mention_patterns`. -/
def analyze_mention_patterns (messages : List Msg) : ℚ :=
  if mention_total_of messages = 0 then 30
  else
    let concentration := mention_conc_of messages
    if 0.8 < concentration then clamp (70 + (concentration - 0.8) * 300)
    else if 0.5 < concentration then clamp (45 + (concentration - 0.5) * 83)
    else max 10 (40 - concentration * 60)

/-- `BehaviorAnalyzer._analyze_channel_usage` (truthy channel ids keyed by
`str(ch)`). -/
def analyze_channel_usage (messages : List Msg) : ℚ :=
  let chans := messages.filterMap (fun m =>
    match m.channel_id with
    | some c => if c.truthy then some c.str else none
    | none => none)
  if chans = [] then 50
  else
    let total_msgs : ℚ := chans.length
    let unique := chans.dedup.length
    if unique = 1 then 70
    else
      let dominance : ℚ := ((chans.dedup.map (fun k => chans.count k)).foldl max 0 : ℕ) / total_msgs
      if 0.9 < dominance then clamp (60 + (dominance - 0.9) * 400)
      else max 20 (50 - ((unique : ℚ) - 2) * 5)

/-- `BehaviorAnalyzer._calculate_editing_score`. -/
def calculate_editing_score (messages : List Msg) : ℚ :=
  if messages = [] then 50
  else
    let edited := (messages.filter (fun m => m.edited_at.isSome)).length
    let ratio : ℚ := (edited : ℚ) / messages.length
    if ratio = 0 then 65
    else if 0.5 < ratio then 70
    else if 0.05 ≤ ratio ∧ ratio ≤ 0.2 then 25
    else 45

/-- `BehaviorAnalyzer._calculate_reaction_score`. -/
def calculate_reaction_score (messages : List Msg) : ℚ :=
  if messages = [] then 50
  else
    let with_reactions := (messages.filter (fun m => m.reactions ≠ [])).length
    let reaction_types := (messages.flatMap (fun m => m.reactions)).dedup
    let ratio : ℚ := (with_reactions : ℚ) / messages.length
    if ratio = 0 then 80
    else if reaction_types.length = 1 ∧ 3 < with_reactions then 75
    else if 0.1 ≤ ratio ∧ ratio ≤ 0.4 then 30
    else 50

/-- The template phrases of `_analyze_conversation_context`. -/
def context_template_phrases : List (List Char) :=
  ["ご質問ありがとうございます".toList, "承知いたしました".toList,
   "お疲れさまでした".toList, "失礼いたします".toList]

/-- The interrogative markers of `_analyze_conversation_context`. -/
def question_markers : List (List Char) :=
  ["?".toList, "？".toList, "どう".toList, "なぜ".toList, "何".toList]

/-- `BehaviorAnalyzer._analyze_conversation_context`. -/
def analyze_conversation_context (messages : List Msg) : ℚ :=
  if messages.length < 10 then 50
  else
    let has_template := fun (m : Msg) =>
      context_template_phrases.any (fun p => contains_phrase (content_of m) p)
    let has_question := fun (m : Msg) =>
      question_markers.any (fun q => contains_phrase (content_of m) q)
    let template_count := (messages.filter has_template).length
    let context_breaks := ((messages.zip messages.tail).filter (fun p =>
      has_question p.1 && has_template p.2)).length
    let n : ℚ := messages.length
    let t_ratio : ℚ := (template_count : ℚ) / n
    let c_ratio : ℚ := (context_breaks : ℚ) / max (n - 1) 1
    clamp ((t_ratio * 60 + c_ratio * 80) * 1.3)

/-- `BehaviorAnalyzer._text_similarity`. -/
def text_similarity (texts1 texts2 : List (List Char)) : ℚ :=
  let avg_len1 := mean (texts1.map (fun t => (t.length : ℚ)))
  let avg_len2 := mean (texts2.map (fun t => (t.length : ℚ)))
  let len_sim := 1 - min (|avg_len1 - avg_len2| / max avg_len1 (max avg_len2 1)) 1
  let set1 := texts1.dedup
  let set2 := texts2.dedup
  let overlap : ℚ :=
    if set1 ≠ [] ∧ set2 ≠ [] then
      ((set1.filter (fun t => t ∈ set2)).length : ℚ) /
        max ((set1 ++ set2.filter (fun t => t ∉ set1)).length : ℚ) 1
    else 0
  (len_sim + overlap) / 2

/-- The channel key used by `_analyze_cross_channel_consistency`:
`str(_get(msg, "channel_id", ""))` (note: `str` first, truthiness after). -/
def cross_channel_key (m : Msg) : String :=
  match m.channel_id with
  | some c => c.str
  | none => ""

/-- `BehaviorAnalyzer._analyze_cross_channel_consistency`. -/
def analyze_cross_channel_consistency (messages : List Msg) : ℚ :=
  let tagged := messages.filterMap (fun m =>
    let ch := cross_channel_key m
    if ch ≠ "" ∧ content_of m ≠ [] then some (ch, content_of m) else none)
  let channels := (tagged.map Prod.fst).dedup
  let group := fun (ch : String) => (tagged.filter (fun p => p.1 = ch)).map Prod.snd
  if channels.length < 2 then 50
  else
    let idx_pairs := (List.range channels.length).flatMap (fun i =>
      (List.range channels.length).filterMap (fun j =>
        if i < j then some (i, j) else none))
    let similarities := idx_pairs.filterMap (fun p =>
      let c1 := group (channels.getD p.1 "")
      let c2 := group (channels.getD p.2 "")
      if 3 ≤ c1.length ∧ 3 ≤ c2.length then some (text_similarity c1 c2) else none)
    if similarities = [] then 50
    else
      let avg := mean similarities
      if 0.7 < avg then clamp (65 + (avg - 0.7) * 300)
      else if 0.5 < avg then clamp (35 + (avg - 0.5) * 150)
      else 25

/-- `BehaviorAnalyzer.analyze_behavior`: six-way weighted composite with the
1.25 sensitivity boost, clamped. -/
def analyze_behavior (messages : List Msg) : ℚ :=
  if messages = [] then 50
  else if messages.length < 5 then 50
  else
    clamp ((analyze_mention_patterns messages * 0.25 +
      analyze_channel_usage messages * 0.20 +
      calculate_editing_score messages * 0.15 +
      calculate_reaction_score messages * 0.15 +
      analyze_conversation_context messages * 0.15 +
      analyze_cross_channel_consistency messages * 0.10) * 1.25)

/-! ### AIDetector (`ai_detect.py`) -/

/-- `BOTCHECK_USE_EXTERNAL_AI` defaults to unset, so external models are off. -/
def USE_EXTERNAL_MODELS : Bool := false

/-- `AIDetector._query_external_model`: with no API endpoint/key configured the
dummy implementation returns the neutral 50. -/
def query_external_model (_contents : List (List Char)) : ℚ := 50

/-- The polite sentence-ending literals of `ai_detect.py` (one more than the
style list). -/
def ai_polite_suffixes : List (List Char) :=
  jp_polite_suffixes ++ ["させていただきます".toList]

/-- The Japanese discourse connectives of `jp_connectors`. -/
def jp_connector_phrases : List (List Char) :=
  ["また".toList, "さらに".toList, "そして".toList, "しかし".toList, "そのため".toList,
   "なお".toList, "一方で".toList, "加えて".toList, "つまり".toList, "すなわち".toList,
   "ただし".toList, "もっとも".toList, "したがって".toList]

/-- The English connective phrases of `en_connectors` (in alternation order). -/
def en_connector_phrases : List (List Char) :=
  ["However".toList, "Furthermore".toList, "Moreover".toList, "Nevertheless".toList,
   "Additionally".toList, "Therefore".toList, "Consequently".toList,
   "In conclusion".toList, "On the other hand".toList, "In addition".toList,
   "As a result".toList]

/-- First phrase of the alternation matching at the head of `text`
(regex alternation tries alternatives left to right). -/
def first_phrase_at (phrases : List (List Char)) (text : List Char) : Option ℕ :=
  phrases.findSome? (fun p =>
    if p ≠ [] ∧ p.isPrefixOf text then some p.length else none)

/-- Fuel-driven scan counting non-overlapping leftmost matches of a plain
literal alternation (`re.findall` with no boundary assertions). The fuel is
always instantiated with the text length, which bounds the number of steps. -/
def count_any_fuel (phrases : List (List Char)) : ℕ → List Char → ℕ
  | 0, _ => 0
  | _ + 1, [] => 0
  | fuel + 1, c :: rest =>
      match first_phrase_at phrases (c :: rest) with
      | some len => 1 + count_any_fuel phrases fuel (rest.drop (len - 1))
      | none => count_any_fuel phrases fuel rest

/-- `len(pattern.findall(text))` for a literal alternation. -/
def count_any (phrases : List (List Char)) (text : List Char) : ℕ :=
  count_any_fuel phrases text.length text

/-- Whether the character starting the remainder is a word character (used for
the `\b` assertion after a match). -/
def boundary_after (l : List Char) : Bool :=
  match l with
  | [] => true
  | d :: _ => !is_word_char d

/-- First phrase of a `\b(...)\b` alternation matching at the head of `text`,
assuming the position itself is at a word boundary. -/
def first_bounded_at (phrases : List (List Char)) (text : List Char) : Option ℕ :=
  phrases.findSome? (fun p =>
    if p ≠ [] ∧ p.isPrefixOf text ∧ boundary_after (text.drop p.length)
    then some p.length else none)

/-- Scan counting matches of `\b(alternation)\b`; the carried flag records
whether the previous character was a word character (no boundary there). -/
def count_bounded_fuel (phrases : List (List Char)) : ℕ → Bool → List Char → ℕ
  | 0, _, _ => 0
  | _ + 1, _, [] => 0
  | fuel + 1, prev_word, c :: rest =>
      match (if prev_word then none else first_bounded_at phrases (c :: rest)) with
      | some len => 1 + count_bounded_fuel phrases fuel true ((c :: rest).drop len)
      | none => count_bounded_fuel phrases fuel (is_word_char c) rest

/-- `len(en_connectors.findall(text))`. -/
def count_bounded (phrases : List (List Char)) (text : List Char) : ℕ :=
  count_bounded_fuel phrases text.length false text

/-- The auxiliary verbs of `en_passive_voice`, in alternation order. -/
def passive_aux_words : List (List Char) :=
  ["was".toList, "were".toList, "is".toList, "are".toList, "been".toList, "being".toList]

/-- A match of `\b(was|...)\s+\w+(ed|en)\b` at the head of `text` (position at
a word boundary): an aux word, one or more whitespace characters, then a
maximal word run of length ≥ 3 ending in `ed`/`en`. Returns the match length. -/
def passive_match_at (text : List Char) : Option ℕ :=
  passive_aux_words.findSome? (fun aux =>
    if aux.isPrefixOf text then
      let rest1 := text.drop aux.length
      let spaces := rest1.takeWhile is_space_char
      let rest2 := rest1.drop spaces.length
      let run := rest2.takeWhile is_word_char
      if spaces.length ≠ 0 ∧ 3 ≤ run.length ∧
          (['e', 'd'].isSuffixOf run ∨ ['e', 'n'].isSuffixOf run)
      then some (aux.length + spaces.length + run.length) else none
    else none)

/-- Scan counting `en_passive_voice` matches. -/
def count_passive_fuel : ℕ → Bool → List Char → ℕ
  | 0, _, _ => 0
  | _ + 1, _, [] => 0
  | fuel + 1, prev_word, c :: rest =>
      match (if prev_word then none else passive_match_at (c :: rest)) with
      | some len => 1 + count_passive_fuel fuel true ((c :: rest).drop len)
      | none => count_passive_fuel fuel (is_word_char c) rest

/-- `len(en_passive_voice.findall(text))`. -/
def count_passive (text : List Char) : ℕ :=
  count_passive_fuel text.length false text

/-- `AIDetector._analyze_japanese_patterns`. -/
def analyze_japanese_patterns (contents : List (List Char)) : ℚ :=
  if contents = [] then 50
  else
    let sentences := (contents.map split_sentences).flatten
    let total_sentences := sentences.length
    let polite_sentences := (sentences.filter (ends_with_any ai_polite_suffixes)).length
    let connector_count := (contents.map (count_any jp_connector_phrases)).sum
    if total_sentences = 0 then 50
    else
      let polite_ratio : ℚ := (polite_sentences : ℚ) / total_sentences
      let polite_consistency_score : ℚ :=
        if 0.8 < polite_ratio then min (50 + (polite_ratio - 0.8) * 250) 90
        else if 0.6 < polite_ratio then 30 + (polite_ratio - 0.6) * 100
        else 0
      let connector_ratio : ℚ := (connector_count : ℚ) / max (total_sentences : ℚ) 1
      let connector_score := min (20 + connector_ratio * 200) 60
      min (polite_consistency_score + connector_score) 100

/-- ASCII sentence split `re.split(r'[.!?]+', ...)` used by
`_analyze_english_patterns`. -/
def split_sentences_ascii (l : List Char) : List (List Char) :=
  ((runs_by (fun c => !(c == '.' || c == '!' || c == '?')) l).map strip).filter
    (fun s => s ≠ [])

/-- `AIDetector._analyze_english_patterns`. -/
def analyze_english_patterns (contents : List (List Char)) : ℚ :=
  if contents = [] then 50
  else
    let total_text := join_spaces contents
    let sentences := split_sentences_ascii total_text
    if sentences = [] then 50
    else
      let connector_matches := count_bounded en_connector_phrases total_text
      let connector_ratio : ℚ := (connector_matches : ℚ) / sentences.length
      let connector_score := min (30 + connector_ratio * 300) 70
      let passive_matches := count_passive total_text
      let words := (word_tokens total_text).length
      let passive_score : ℚ :=
        if 0 < words then
          min (20 + ((passive_matches : ℚ) / ((words : ℚ) / 100)) * 40) 60
        else 20
      min (connector_score + passive_score) 100

/-- `AIDetector._find_common_substrings`: substrings of `s1` of length 5 to 19
that also occur in `s2`, deduplicated. -/
def find_common_substrings (s1 s2 : List Char) : List (List Char) :=
  ((List.range (s1.length - 4)).flatMap (fun i =>
    (List.range' 5 (min (s1.length - i + 1) 20 - 5)).filterMap (fun j =>
      let sub := (s1.drop i).take j
      if contains_phrase s2 sub then some sub else none))).dedup

/-- `AIDetector._detect_repeated_phrases`. -/
def detect_repeated_phrases (contents : List (List Char)) : ℚ :=
  if contents = [] ∨ contents.length < 3 then 50
  else
    let idx_pairs := (List.range contents.length).flatMap (fun i =>
      (List.range contents.length).filterMap (fun j =>
        if i < j then some (i, j) else none))
    let phrases := idx_pairs.flatMap (fun p =>
      (find_common_substrings (contents.getD p.1 []) (contents.getD p.2 [])).filter
        (fun ph => 5 ≤ ph.length))
    if phrases = [] then 0
    else
      let total_comparisons := contents.length * (contents.length - 1) / 2
      let repeated := ((phrases.dedup.map (fun k => phrases.count k)).filter
        (fun c => 2 ≤ c)).sum
      if total_comparisons = 0 then 30
      else min (40 + ((repeated : ℚ) / total_comparisons) * 400) 100

/-- `AIDetector._analyze_sentence_length_uniformity` (`statistics.stdev` =
square root of the sample variance; `StatisticsError` unreachable for ≥ 5
samples). -/
noncomputable def analyze_sentence_length_uniformity (contents : List (List Char)) : ℝ :=
  if contents = [] then 50
  else
    let lens := sentence_lengths contents
    if lens.length < 5 then 50
    else
      let mean_length := mean lens
      if mean_length = 0 then 50
      else
        let cv : ℝ := Real.sqrt ((sample_variance lens : ℚ) : ℝ) / ((mean_length : ℚ) : ℝ)
        if cv < 0.2 then min (50 + (0.2 - cv) * 250) 100
        else max 10 (50 - cv * 80)

/-- `AIDetector._calculate_ngram_repetition`. -/
def calculate_ngram_repetition (contents : List (List Char)) : ℚ :=
  if contents = [] then 50
  else
    let words := word_tokens (lower (join_spaces contents))
    if words.length < 10 then 50
    else
      let trigrams := (List.range (words.length - 2)).map (fun i => (words.drop i).take 3)
      if trigrams = [] then 50
      else
        let duplicated : ℕ := (((trigrams.dedup.map (fun k => trigrams.count k)).filter
          (fun c => 1 < c)).map (fun c => c - 1)).sum
        let duplication_ratio : ℚ := (duplicated : ℚ) / trigrams.length
        if duplication_ratio < 0.05 then 15
        else if duplication_ratio < 0.15 then 25 + duplication_ratio * 100
        else min (60 + duplication_ratio * 300) 100

/-- `AIDetector._detect_language_weights` — (japanese, english) weights. -/
def detect_language_weights (contents : List (List Char)) : ℚ × ℚ :=
  let all_text := join_spaces contents
  let japanese_chars := (all_text.filter (fun c =>
    (0x3040 ≤ c.toNat && c.toNat ≤ 0x30FF) || (0x4E00 ≤ c.toNat && c.toNat ≤ 0x9FFF))).length
  let english_chars := (all_text.filter (fun c =>
    ('a' ≤ c && c ≤ 'z') || ('A' ≤ c && c ≤ 'Z'))).length
  let total_chars := japanese_chars + english_chars
  if total_chars = 0 then (0.5, 0.5)
  else ((japanese_chars : ℚ) / total_chars, (english_chars : ℚ) / total_chars)

/-- `AIDetector.detect_ai_text`: weighted blend, 1.8 sensitivity boost,
optional external-model mixing (off by default), clamped. -/
noncomputable def detect_ai_text (messages : List Msg) : ℝ :=
  if messages = [] then 50
  else
    let contents := extract_contents messages 5
    if contents.length < 3 then 50
    else
      let lang_weights := detect_language_weights contents
      let total : ℝ :=
        ((analyze_japanese_patterns contents * lang_weights.1 * 0.25 : ℚ) : ℝ) +
        ((analyze_english_patterns contents * lang_weights.2 * 0.25 : ℚ) : ℝ) +
        ((detect_repeated_phrases contents * 0.20 : ℚ) : ℝ) +
        analyze_sentence_length_uniformity contents * 0.15 +
        ((calculate_ngram_repetition contents * 0.15 : ℚ) : ℝ)
      let boosted := total * 1.8
      let final : ℝ :=
        if USE_EXTERNAL_MODELS then
          boosted * 0.7 + ((query_external_model contents : ℚ) : ℝ) * 0.3
        else boosted
      min (max final 0) 100

/-! ### ProfileAnalyzer (`profile.py`)

`_analyze_account_age` reads the current clock (`datetime.now()`); the clock
is passed explicitly as `now` (POSIX seconds). The numeric `created_at`
branch of the source is the one modelled (`age_days` fractional). -/

/-- `ProfileAnalyzer._analyze_account_age`. -/
def analyze_account_age (u : UserInfo) (now : ℚ) : ℚ :=
  match u.created_at with
  | none => 50
  | some c =>
      let age_days := (now - c) / 86400
      if age_days < 1 then 95
      else if age_days < 7 then 80
      else if age_days < 30 then 60
      else if age_days < 90 then 40
      else if age_days < 365 then 25
      else 10

/-- `ProfileAnalyzer._analyze_avatar` (`None`/`""`/`False` all count as
missing). -/
def analyze_avatar (u : UserInfo) : ℚ :=
  match u.avatar with
  | none => 75
  | some a => if a = "" then 75 else 15

/-- `ProfileAnalyzer._calculate_randomness` (Python `isalpha` modelled as
ASCII letters, matching the repository's usernames). -/
def calculate_randomness (text : List Char) : ℚ :=
  if text.length < 3 then 0.5
  else
    let is_vowel := fun (c : Char) =>
      c == 'a' || c == 'e' || c == 'i' || c == 'o' || c == 'u' ||
      c == 'A' || c == 'E' || c == 'I' || c == 'O' || c == 'U'
    let is_alpha := fun (c : Char) => c.isAlpha
    let transitions := ((text.zip text.tail).filter (fun p =>
      is_alpha p.1 && is_alpha p.2 && (is_vowel p.1 != is_vowel p.2))).length
    let alpha_chars := (text.filter is_alpha).length
    if alpha_chars < 2 then 0.5
    else
      let transition_ratio : ℚ := (transitions : ℚ) / ((alpha_chars : ℚ) - 1)
      let has_repeats := (text.zip text.tail).any (fun p => p.1 == p.2)
      let unique_ratio : ℚ := ((lower text).dedup.length : ℚ) / text.length
      let randomness := unique_ratio * 0.5 + (1 - |transition_ratio - 0.5|) * 0.3
      let randomness := if !has_repeats ∧ 8 < text.length then randomness + 0.2
        else randomness
      min randomness 1

/-- `ProfileAnalyzer._analyze_username_pattern`. -/
def analyze_username_pattern (u : UserInfo) : ℚ :=
  if u.username = [] then 50
  else
    let randomness := calculate_randomness u.username
    let s1 : ℚ := if 0.6 < randomness then 70 + (randomness - 0.6) * 75 else 20
    let digit_ratio : ℚ :=
      ((u.username.filter (fun c => c.isDigit)).length : ℚ) / u.username.length
    let s2 : ℚ := if 0.5 < digit_ratio then 75 else if 0.3 < digit_ratio then 55 else 20
    let s3 : ℚ := if 4 ≤ u.username.length ∧
        ((u.username.reverse.take 4).all (fun c => c.isDigit)) then 70 else 25
    clamp ((s1 + s2 + s3) / 3)

/-- `ProfileAnalyzer._analyze_status` (a status string is falsy when empty). -/
def analyze_status (u : UserInfo) : ℚ :=
  let status_truthy := match u.status with | none => false | some s => s ≠ ""
  if !status_truthy ∧ u.activities = [] then 65
  else if u.activities ≠ [] then 15
  else if u.status = some "online" ∨ u.status = some "idle" ∨ u.status = some "dnd"
    then 35
  else 50

/-- `ProfileAnalyzer._analyze_custom_status`. -/
def analyze_custom_status (u : UserInfo) : ℚ :=
  match u.custom_status with
  | none => 60
  | some s => if s = "" then 60 else 10

/-- `ProfileAnalyzer.analyze_profile`; `none` models the empty `user_info`
dict (falsy), for which the source returns 50. -/
def analyze_profile (u : Option UserInfo) (now : ℚ) : ℚ :=
  match u with
  | none => 50
  | some ui =>
      clamp (analyze_account_age ui now * 0.25 + analyze_avatar ui * 0.20 +
        analyze_username_pattern ui * 0.25 + analyze_status ui * 0.15 +
        analyze_custom_status ui * 0.15)

/-! ### NetworkAnalyzer (`network.py`)

Every comparison in this module goes through Python `str(...)`; `str(None)` is
the string `"None"`. -/

/-- `str(_get(msg, "author_id"))` as used by the network analyzer. -/
def auth_str (m : Msg) : String :=
  match m.author_id with
  | none => "None"
  | some i => i.str

/-- The mention ids of a message as strings
(`[str(m) for m in self._extract_mention_ids(mentions)]`). -/
def mention_strs (m : Msg) : List String := m.mentions.map Uid.str

/-- `NetworkAnalyzer._infer_target_user`: the most frequent author string
(ties broken by first appearance, as `Counter.most_common`'s stable sort). -/
def infer_target_user (messages : List Msg) : Option String :=
  let strs := messages.filterMap (fun m => m.author_id.map Uid.str)
  if strs = [] then none
  else
    let keys := strs.dedup
    let mx := (keys.map (fun k => strs.count k)).foldl max 0
    keys.find? (fun k => strs.count k = mx)

/-- One step of `_analyze_reciprocity`'s loop: accumulates the mention targets
of the focal user and the authors mentioning the focal user. -/
def reciprocity_step (t : String) (acc : List String × List String) (m : Msg) :
    List String × List String :=
  let ms := mention_strs m
  if ms = [] then acc
  else if auth_str m = t then (acc.1 ++ ms, acc.2)
  else if t ∈ ms then (acc.1, acc.2 ++ [auth_str m])
  else acc

/-- `NetworkAnalyzer._analyze_reciprocity`. -/
def analyze_reciprocity (messages : List Msg) (t : String) : ℚ :=
  let p := messages.foldl (reciprocity_step t) ([], [])
  if p.1 = [] ∧ p.2 = [] then 60
  else
    let sent_set := p.1.dedup
    let received_set := p.2.dedup
    let mutual_set := sent_set.filter (fun k => k ∈ received_set)
    let total_contacts := (sent_set ++ received_set.filter (fun k => k ∉ sent_set)).length
    if total_contacts = 0 then 60
    else
      let mutual_ratio : ℚ := (mutual_set.length : ℚ) / total_contacts
      if 0.5 < mutual_ratio then clamp (10 + (1 - mutual_ratio) * 40)
      else if 0.2 < mutual_ratio then 45
      else clamp (65 + (0.2 - mutual_ratio) * 175)

/-- `NetworkAnalyzer._analyze_mention_balance`. -/
def analyze_mention_balance (messages : List Msg) (t : String) : ℚ :=
  let withm := messages.filter (fun m => m.mentions ≠ [])
  let sent_mentions := ((withm.filter (fun m => auth_str m = t)).map
    (fun m => (mention_strs m).length)).sum
  let received_mentions := (withm.filter (fun m => t ∈ mention_strs m)).length
  if sent_mentions + received_mentions = 0 then 55
  else if received_mentions = 0 ∧ 0 < sent_mentions then 80
  else if sent_mentions = 0 ∧ 0 < received_mentions then 65
  else
    let balance : ℚ := ((min sent_mentions received_mentions : ℕ) : ℚ) /
      ((max sent_mentions received_mentions : ℕ) : ℚ)
    if 0.5 < balance then clamp (15 + (1 - balance) * 40)
    else clamp (50 + (0.5 - balance) * 100)

/-- The (channel string, has-mentions) pairs of the focal user's messages with
truthy channel ids, as collected by `_analyze_channel_relations`. -/
def channel_tags (messages : List Msg) (t : String) : List (String × Bool) :=
  messages.filterMap (fun m =>
    match m.channel_id with
    | some c =>
        if c.truthy then
          if auth_str m = t then some (c.str, m.mentions ≠ []) else none
        else none
    | none => none)

/-- `NetworkAnalyzer._analyze_channel_relations`. -/
def analyze_channel_relations (messages : List Msg) (t : String) : ℚ :=
  let tags := channel_tags messages t
  let channels_active := (tags.map Prod.fst).dedup
  let channels_with_interaction := ((tags.filter Prod.snd).map Prod.fst).dedup
  if channels_active = [] then 50
  else if channels_active.length = 1 then 65
  else
    let interaction_ratio : ℚ :=
      (channels_with_interaction.length : ℚ) / channels_active.length
    if 0.5 < interaction_ratio then clamp (15 + (1 - interaction_ratio) * 30)
    else clamp (50 + (0.5 - interaction_ratio) * 60)

/-- One step of `_analyze_isolation`'s loop: accumulates interacted-with user
strings and the focal user's message count. -/
def isolation_step (t : String) (acc : List String × ℕ) (m : Msg) :
    List String × ℕ :=
  let ms := mention_strs m
  if auth_str m = t then (acc.1 ++ ms, acc.2 + 1)
  else if ms ≠ [] ∧ t ∈ ms then (acc.1 ++ [auth_str m], acc.2)
  else acc

/-- `NetworkAnalyzer._analyze_isolation`. -/
def analyze_isolation (messages : List Msg) (t : String) : ℚ :=
  let p := messages.foldl (isolation_step t) ([], 0)
  if p.2 = 0 then 50
  else if p.1 = [] then 85
  else
    let interaction_density : ℚ := (p.1.dedup.length : ℚ) / p.2
    if 0.3 < interaction_density then 15
    else if 0.1 < interaction_density then 35
    else clamp (60 + (0.1 - interaction_density) * 250)

/-- `NetworkAnalyzer.analyze_network` (the engine calls it with no explicit
target, so the target defaults to the inferred most-frequent author). -/
def analyze_network (messages : List Msg) (target_user_id : Option Uid) : ℚ :=
  if messages.length < 5 then 50
  else
    let resolved := match target_user_id with
      | some i => some i.str
      | none => infer_target_user messages
    match resolved with
    | none => 50
    | some t =>
        clamp (analyze_reciprocity messages t * 0.30 +
          analyze_mention_balance messages t * 0.25 +
          analyze_channel_relations messages t * 0.20 +
          analyze_isolation messages t * 0.25)

/-! ### AnalysisEngine (`engine.py`) -/

/-- The result record of `AnalysisEngine.analyze_user`. `analysis_date` is the
`datetime.now()` value, i.e. the engine's `now` parameter in this model. -/
structure AnalysisResult where
  total_score : ℝ
  timing_score : ℝ
  style_score : ℝ
  behavior_score : ℚ
  ai_score : ℝ
  profile_score : ℚ
  network_score : ℚ
  confidence : ℚ
  message_count : ℕ
  user_id : Option Uid
  analysis_date : ℚ
  analysis_period_hours : ℚ

/-- `AnalysisEngine._empty_result`. -/
def empty_result (now : ℚ) : AnalysisResult :=
  { total_score := 50, timing_score := 50, style_score := 50, behavior_score := 50,
    ai_score := 50, profile_score := 50, network_score := 50, confidence := 0,
    message_count := 0, user_id := none, analysis_date := now,
    analysis_period_hours := 0 }

/-- The confidence curve of `analyze_user` as a function of the batch size. -/
def confidence_of (n : ℕ) : ℚ :=
  if 100 ≤ n then 100
  else if 50 ≤ n then 90 + ((n : ℚ) - 50) * 0.2
  else if 20 ≤ n then 80 + ((n : ℚ) - 20) * (10 / 30)
  else (n : ℚ) * 4

/-- `AnalysisEngine._extract_user_id`: the first present author id. -/
def extract_user_id (messages : List Msg) : Option Uid :=
  (messages.filterMap (fun m => m.author_id)).head?

/-- `AnalysisEngine._extract_timestamps`: the `created_at` values (the source
keeps only `datetime` instances; `created_at` models that field). -/
def extract_timestamps (messages : List Msg) : List ℚ :=
  messages.filterMap (fun m => m.created_at)

/-- `AnalysisEngine.analyze_user`. The wall clock (`datetime.now()`) is the
explicit `now` parameter; `w` is the engine's configured `self.weights`. -/
noncomputable def analyze_user (now : ℚ) (w : Weights) (messages : List Msg)
    (user_info : Option UserInfo) : AnalysisResult :=
  if messages.length = 0 then empty_result now
  else
    let timing_score := analyze_timing messages
    let style_score := analyze_style messages
    let behavior_score := analyze_behavior messages
    let ai_score := detect_ai_text messages
    let profile_score := analyze_profile user_info now
    let network_score := analyze_network messages none
    let wsum := Weights.sum w
    let total : ℚ := if wsum ≤ 0 then 1 else wsum
    let total_score : ℝ :=
      (timing_score * ((w.timing : ℚ) : ℝ) + style_score * ((w.style : ℚ) : ℝ) +
        ((behavior_score : ℚ) : ℝ) * ((w.behavior : ℚ) : ℝ) +
        ai_score * ((w.ai : ℚ) : ℝ) +
        ((profile_score : ℚ) : ℝ) * ((w.profile : ℚ) : ℝ) +
        ((network_score : ℚ) : ℝ) * ((w.network : ℚ) : ℝ)) / ((total : ℚ) : ℝ)
    let total_score := min (max total_score 0) 100
    let confidence := clamp (confidence_of messages.length)
    let ts := extract_timestamps messages
    let period_hours : ℚ :=
      if 2 ≤ ts.length then ((ts.foldl max (ts.headD 0)) - (ts.foldl min (ts.headD 0))) / 3600
      else 0
    { total_score := round2R total_score,
      timing_score := round2R timing_score,
      style_score := round2R style_score,
      behavior_score := round2 behavior_score,
      ai_score := round2R ai_score,
      profile_score := round2 profile_score,
      network_score := round2 network_score,
      confidence := round2 confidence,
      message_count := messages.length,
      user_id := extract_user_id messages,
      analysis_date := now,
      analysis_period_hours := round2 period_hours }

/-- Modelled from the spec (the claimed reply-speed design, which does not
occur in `timing.py`): for messages flagged `is_reply`, take the explicit
`reply_delay_seconds` if present, else the gap to the immediately preceding
message; average the delays `d` and map `d ≤ 5 → 95`, `d ≥ 120 → 15`, else
`95 - 80*(d-5)/115`; with no reply evidence return 45. -/
def spec_reply_speed (messages : List Msg) : ℚ :=
  let delays := (List.range messages.length).filterMap (fun i =>
    match messages.getD i msg0 with
    | m =>
      if m.is_reply then
        match m.reply_delay_seconds with
        | some d => some d
        | none =>
            if 1 ≤ i then
              match extract_timestamp (messages.getD (i - 1) msg0),
                  extract_timestamp (messages.getD i msg0) with
              | some t1, some t2 => some (t2 - t1)
              | _, _ => none
            else none
      else none)
  if delays = [] then 45
  else
    let d := mean delays
    if d ≤ 5 then 95
    else if 120 ≤ d then 15
    else 95 - 80 * (d - 5) / 115

/-! ### Range lemmas -/

theorem clamp_nonneg (v : ℚ) : 0 ≤ clamp v := le_max_left 0 _

theorem clamp_le_100 (v : ℚ) : clamp v ≤ 100 :=
  max_le (by norm_num) (min_le_left 100 v)

theorem minmax_nonneg (x : ℝ) : 0 ≤ min (max x 0) 100 :=
  le_min (le_max_right x 0) (by norm_num)

theorem minmax_le_100 (x : ℝ) : min (max x 0) 100 ≤ 100 := min_le_right _ 100

theorem round_le_of_le {α : Type*} [LinearOrderedField α] [FloorRing α] {x y : α}
    (h : x ≤ y) : round x ≤ round y := by
  rw [round_eq, round_eq]
  exact Int.floor_le_floor (by linarith)

theorem round2_nonneg {x : ℚ} (h : 0 ≤ x) : 0 ≤ round2 x := by
  have h1 : (0 : ℤ) ≤ round (100 * x) := by
    have := round_le_of_le (show (0 : ℚ) ≤ 100 * x by linarith)
    simpa using this
  unfold round2
  positivity

theorem round2_le_100 {x : ℚ} (h : x ≤ 100) : round2 x ≤ 100 := by
  have h1 : round (100 * x) ≤ (10000 : ℤ) := by
    have h2 := round_le_of_le (show 100 * x ≤ ((10000 : ℤ) : ℚ) by push_cast; linarith)
    simpa [round_intCast] using h2
  unfold round2
  rw [div_le_iff₀ (by norm_num)]
  have h2 : ((round (100 * x) : ℤ) : ℚ) ≤ ((10000 : ℤ) : ℚ) := by exact_mod_cast h1
  push_cast at h2 ⊢
  linarith

theorem round2R_nonneg {x : ℝ} (h : 0 ≤ x) : 0 ≤ round2R x := by
  have h1 : (0 : ℤ) ≤ round (100 * x) := by
    have := round_le_of_le (show (0 : ℝ) ≤ 100 * x by linarith)
    simpa using this
  unfold round2R
  positivity

theorem round2R_le_100 {x : ℝ} (h : x ≤ 100) : round2R x ≤ 100 := by
  have h1 : round (100 * x) ≤ (10000 : ℤ) := by
    have h2 := round_le_of_le (show 100 * x ≤ ((10000 : ℤ) : ℝ) by push_cast; linarith)
    simpa [round_intCast] using h2
  unfold round2R
  rw [div_le_iff₀ (by norm_num)]
  have h2 : ((round (100 * x) : ℤ) : ℝ) ≤ ((10000 : ℤ) : ℝ) := by exact_mod_cast h1
  push_cast at h2 ⊢
  linarith

theorem analyze_timing_range (messages : List Msg) :
    0 ≤ analyze_timing messages ∧ analyze_timing messages ≤ 100 := by
  simp only [analyze_timing]
  split_ifs with h
  · norm_num
  · exact ⟨minmax_nonneg _, minmax_le_100 _⟩

theorem analyze_style_range (messages : List Msg) :
    0 ≤ analyze_style messages ∧ analyze_style messages ≤ 100 := by
  simp only [analyze_style]
  split_ifs with h1 h2
  · norm_num
  · norm_num
  · exact ⟨minmax_nonneg _, minmax_le_100 _⟩

theorem analyze_behavior_range (messages : List Msg) :
    0 ≤ analyze_behavior messages ∧ analyze_behavior messages ≤ 100 := by
  simp only [analyze_behavior]
  split_ifs with h1 h2
  · norm_num
  · norm_num
  · exact ⟨clamp_nonneg _, clamp_le_100 _⟩

theorem detect_ai_text_range (messages : List Msg) :
    0 ≤ detect_ai_text messages ∧ detect_ai_text messages ≤ 100 := by
  simp only [detect_ai_text, USE_EXTERNAL_MODELS, Bool.false_eq_true, if_false]
  split_ifs with h1 h2
  · norm_num
  · norm_num
  · exact ⟨minmax_nonneg _, minmax_le_100 _⟩

theorem analyze_profile_range (u : Option UserInfo) (now : ℚ) :
    0 ≤ analyze_profile u now ∧ analyze_profile u now ≤ 100 := by
  simp only [analyze_profile]
  cases u with
  | none => norm_num
  | some ui => exact ⟨clamp_nonneg _, clamp_le_100 _⟩

theorem analyze_network_range (messages : List Msg) (t : Option Uid) :
    0 ≤ analyze_network messages t ∧ analyze_network messages t ≤ 100 := by
  simp only [analyze_network]
  split_ifs with h
  · norm_num
  · cases hm : (match t with | some i => some i.str | none => infer_target_user messages) with
    | none => norm_num [hm]
    | some s => simp only [hm]; exact ⟨clamp_nonneg _, clamp_le_100 _⟩

/-- C1: for every input batch of messages, every weight configuration and
every optional profile, each per-axis sub-score returned by
`AnalysisEngine.analyze_user` (`timing_score`, `style_score`,
`behavior_score`, `ai_score`, `profile_score`, `network_score`), the
`total_score` and the `confidence` all lie in the interval [0, 100]. In this
total, exception-free embedding over exact arithmetic no field can be NaN or
undefined. -/
theorem C1_range (now : ℚ) (w : Weights) (messages : List Msg)
    (user_info : Option UserInfo) :
    (0 ≤ (analyze_user now w messages user_info).total_score ∧
      (analyze_user now w messages user_info).total_score ≤ 100) ∧
    (0 ≤ (analyze_user now w messages user_info).timing_score ∧
      (analyze_user now w messages user_info).timing_score ≤ 100) ∧
    (0 ≤ (analyze_user now w messages user_info).style_score ∧
      (analyze_user now w messages user_info).style_score ≤ 100) ∧
    (0 ≤ (analyze_user now w messages user_info).behavior_score ∧
      (analyze_user now w messages user_info).behavior_score ≤ 100) ∧
    (0 ≤ (analyze_user now w messages user_info).ai_score ∧
      (analyze_user now w messages user_info).ai_score ≤ 100) ∧
    (0 ≤ (analyze_user now w messages user_info).profile_score ∧
      (analyze_user now w messages user_info).profile_score ≤ 100) ∧
    (0 ≤ (analyze_user now w messages user_info).network_score ∧
      (analyze_user now w messages user_info).network_score ≤ 100) ∧
    (0 ≤ (analyze_user now w messages user_info).confidence ∧
      (analyze_user now w messages user_info).confidence ≤ 100) := by
  by_cases h : messages.length = 0
  · simp only [analyze_user, if_pos h, empty_result]
    norm_num
  · simp only [analyze_user, if_neg h]
    refine ⟨⟨round2R_nonneg (minmax_nonneg _), round2R_le_100 (minmax_le_100 _)⟩,
      ⟨round2R_nonneg (analyze_timing_range messages).1,
        round2R_le_100 (analyze_timing_range messages).2⟩,
      ⟨round2R_nonneg (analyze_style_range messages).1,
        round2R_le_100 (analyze_style_range messages).2⟩,
      ⟨round2_nonneg (analyze_behavior_range messages).1,
        round2_le_100 (analyze_behavior_range messages).2⟩,
      ⟨round2R_nonneg (detect_ai_text_range messages).1,
        round2R_le_100 (detect_ai_text_range messages).2⟩,
      ⟨round2_nonneg (analyze_profile_range user_info now).1,
        round2_le_100 (analyze_profile_range user_info now).2⟩,
      ⟨round2_nonneg (analyze_network_range messages none).1,
        round2_le_100 (analyze_network_range messages none).2⟩,
      ⟨round2_nonneg (clamp_nonneg _), round2_le_100 (clamp_le_100 _)⟩⟩

/-- C2: `analyze_user` on an empty message list returns the fixed neutral
result: `total_score = 50`, every per-axis sub-score `= 50`,
`message_count = 0` and `confidence = 0`. -/
theorem C2_empty_batch (now : ℚ) (w : Weights) (user_info : Option UserInfo) :
    (analyze_user now w [] user_info).total_score = 50 ∧
    (analyze_user now w [] user_info).timing_score = 50 ∧
    (analyze_user now w [] user_info).style_score = 50 ∧
    (analyze_user now w [] user_info).behavior_score = 50 ∧
    (analyze_user now w [] user_info).ai_score = 50 ∧
    (analyze_user now w [] user_info).profile_score = 50 ∧
    (analyze_user now w [] user_info).network_score = 50 ∧
    (analyze_user now w [] user_info).message_count = 0 ∧
    (analyze_user now w [] user_info).confidence = 0 := by
  simp only [analyze_user, List.length_nil, if_pos rfl, empty_result]
  norm_num

/-! ### C3: determinism / time dependence -/

theorem analyze_user_profile_score_eq (now : ℚ) (w : Weights) (messages : List Msg)
    (u : Option UserInfo) (h : ¬ messages.length = 0) :
    (analyze_user now w messages u).profile_score = round2 (analyze_profile u now) := by
  simp only [analyze_user, if_neg h]

/-- The profile used by the C3 counterexample: only an account creation time. -/
def c3_user : Option UserInfo := some { user0 with created_at := some 0 }

/-- The one-message batch used by the C3 counterexample. -/
def c3_msgs : List Msg := [msg0]

/-- C3 counterexample: `analyze_user` is not a pure function of the message
batch and profile alone — the account-age sub-score reads the wall clock, so
two calls on identical inputs at times 1000 s and 10⁹ s after the epoch (with
a profile created at the epoch) return different `profile_score`s (70 versus
48.75). -/
theorem C3_counterexample :
    (analyze_user 1000 default_weights c3_msgs c3_user).profile_score ≠
      (analyze_user 1000000000 default_weights c3_msgs c3_user).profile_score := by
  rw [analyze_user_profile_score_eq 1000 default_weights c3_msgs c3_user (by decide),
    analyze_user_profile_score_eq 1000000000 default_weights c3_msgs c3_user (by decide)]
  have h1 : analyze_profile c3_user 1000 = 70 := by
    norm_num [analyze_profile, c3_user, analyze_account_age, analyze_avatar, user0,
      analyze_username_pattern, analyze_status, analyze_custom_status, clamp]
  have h2 : analyze_profile c3_user 1000000000 = 48.75 := by
    norm_num [analyze_profile, c3_user, analyze_account_age, analyze_avatar, user0,
      analyze_username_pattern, analyze_status, analyze_custom_status, clamp]
  rw [h1, h2]
  norm_num [round2, round_eq]

/-- C3 amended: `analyze_user` is deterministic up to the clock inputs it
actually reads — when no profile is supplied, two calls on an identical batch
at any two times agree on every field except `analysis_date`; with a profile,
`profile_score` (and hence `total_score`) may additionally vary with the
current time through the account-age bucket, as the counterexample shows. -/
theorem C3_determinism_no_profile (t1 t2 : ℚ) (w : Weights) (messages : List Msg) :
    (analyze_user t1 w messages none).total_score =
      (analyze_user t2 w messages none).total_score ∧
    (analyze_user t1 w messages none).timing_score =
      (analyze_user t2 w messages none).timing_score ∧
    (analyze_user t1 w messages none).style_score =
      (analyze_user t2 w messages none).style_score ∧
    (analyze_user t1 w messages none).behavior_score =
      (analyze_user t2 w messages none).behavior_score ∧
    (analyze_user t1 w messages none).ai_score =
      (analyze_user t2 w messages none).ai_score ∧
    (analyze_user t1 w messages none).profile_score =
      (analyze_user t2 w messages none).profile_score ∧
    (analyze_user t1 w messages none).network_score =
      (analyze_user t2 w messages none).network_score ∧
    (analyze_user t1 w messages none).confidence =
      (analyze_user t2 w messages none).confidence ∧
    (analyze_user t1 w messages none).message_count =
      (analyze_user t2 w messages none).message_count ∧
    (analyze_user t1 w messages none).user_id =
      (analyze_user t2 w messages none).user_id ∧
    (analyze_user t1 w messages none).analysis_period_hours =
      (analyze_user t2 w messages none).analysis_period_hours := by
  by_cases h : messages.length = 0
  · simp [analyze_user, h, empty_result]
  · simp [analyze_user, h, analyze_profile]

/-! ### C4: weight renormalization -/

theorem Weights.sum_smul (c : ℚ) (w : Weights) :
    (Weights.smul c w).sum = c * w.sum := by
  simp only [Weights.smul, Weights.sum]
  ring

theorem Weights.sum_normalize (w : Weights) (h : w.sum ≠ 0) :
    (Weights.normalize w).sum = 1 := by
  simp only [Weights.normalize, Weights.sum] at *
  field_simp

/-- C4: for every batch, profile and clock, every weight mapping `w` over the
six axis keys with positive total and every positive scalar `c`, analyzing
with weights `c • w` yields the same `total_score` as analyzing with `w`
renormalized to sum 1. -/
theorem C4_weight_renormalization (now : ℚ) (messages : List Msg)
    (u : Option UserInfo) (w : Weights) (c : ℚ) (hc : 0 < c) (hs : 0 < w.sum) :
    (analyze_user now (Weights.smul c w) messages u).total_score =
      (analyze_user now (Weights.normalize w) messages u).total_score := by
  by_cases h : messages.length = 0
  · simp [analyze_user, h]
  · simp only [analyze_user, if_neg h]
    have hD1 : ¬ (Weights.smul c w).sum ≤ 0 := by
      rw [Weights.sum_smul]
      nlinarith
    have hD2 : ¬ (Weights.normalize w).sum ≤ 0 := by
      rw [Weights.sum_normalize w (ne_of_gt hs)]
      norm_num
    rw [if_neg hD1, if_neg hD2, Weights.sum_smul, Weights.sum_normalize w (ne_of_gt hs)]
    congr 1
    congr 1
    congr 1
    simp only [Weights.smul, Weights.normalize]
    have hcR : ((c : ℚ) : ℝ) ≠ 0 := by exact_mod_cast ne_of_gt hc
    have hsR : ((w.sum : ℚ) : ℝ) ≠ 0 := by exact_mod_cast ne_of_gt hs
    push_cast
    field_simp
    ring

/-- The one-message batch used by the C4 witness. -/
def c4_msgs : List Msg := [msg0]

/-- C4 witness: the renormalization theorem applied at a concrete batch, the
default weights (sum 1) and scale factor 2. -/
theorem C4_witness :
    0 < (2 : ℚ) ∧ 0 < default_weights.sum ∧
    (analyze_user 0 (Weights.smul 2 default_weights) c4_msgs none).total_score =
      (analyze_user 0 (Weights.normalize default_weights) c4_msgs none).total_score :=
  ⟨by norm_num, by norm_num [Weights.sum, default_weights],
    C4_weight_renormalization 0 c4_msgs none default_weights 2 (by norm_num)
      (by norm_num [Weights.sum, default_weights])⟩

/-! ### C5: confidence curve -/

theorem confidence_of_mono {m n : ℕ} (h : m ≤ n) :
    confidence_of m ≤ confidence_of n := by
  have hm : (m : ℚ) ≤ (n : ℚ) := by exact_mod_cast h
  unfold confidence_of
  split_ifs <;> first | linarith | (exfalso; omega) | skip
  all_goals
    try (have h20a : (20 : ℚ) ≤ (n : ℚ) := by exact_mod_cast (by omega : (20 : ℕ) ≤ n))
  all_goals
    try (have h50a : (50 : ℚ) ≤ (n : ℚ) := by exact_mod_cast (by omega : (50 : ℕ) ≤ n))
  all_goals
    try (have h100a : (100 : ℚ) ≤ (n : ℚ) := by exact_mod_cast (by omega : (100 : ℕ) ≤ n))
  all_goals
    try (have hm19 : (m : ℚ) < 20 := by exact_mod_cast (by omega : m < 20))
  all_goals
    try (have hm49 : (m : ℚ) < 50 := by exact_mod_cast (by omega : m < 50))
  all_goals
    try (have hm99 : (m : ℚ) < 100 := by exact_mod_cast (by omega : m < 100))
  all_goals linarith


theorem clamp_mono {x y : ℚ} (h : x ≤ y) : clamp x ≤ clamp y :=
  max_le_max le_rfl (min_le_min le_rfl h)

theorem round2_mono {x y : ℚ} (h : x ≤ y) : round2 x ≤ round2 y := by
  unfold round2
  have h1 : round (100 * x) ≤ round (100 * y) := round_le_of_le (by linarith)
  have h2 : ((round (100 * x) : ℤ) : ℚ) ≤ ((round (100 * y) : ℤ) : ℚ) := by
    exact_mod_cast h1
  linarith

theorem analyze_user_confidence_eq (now : ℚ) (w : Weights) (messages : List Msg)
    (u : Option UserInfo) :
    (analyze_user now w messages u).confidence =
      round2 (clamp (confidence_of messages.length)) := by
  by_cases h : messages.length = 0
  · rw [h]
    simp only [analyze_user, h, if_pos rfl, empty_result]
    norm_num [confidence_of, clamp, round2]
  · simp only [analyze_user, if_neg h]

/-- C5: the `confidence` field of `analyze_user` is a monotone non-decreasing
function of the batch size `n`; it equals 80 at `n = 20`, 90 at `n = 50`, and
saturates at exactly 100 for every `n ≥ 100`. -/
theorem C5_confidence :
    (∀ (t1 t2 : ℚ) (w1 w2 : Weights) (u1 u2 : Option UserInfo)
        (m1 m2 : List Msg), m1.length ≤ m2.length →
        (analyze_user t1 w1 m1 u1).confidence ≤ (analyze_user t2 w2 m2 u2).confidence) ∧
    (∀ (t : ℚ) (w : Weights) (u : Option UserInfo) (messages : List Msg),
        messages.length = 20 → (analyze_user t w messages u).confidence = 80) ∧
    (∀ (t : ℚ) (w : Weights) (u : Option UserInfo) (messages : List Msg),
        messages.length = 50 → (analyze_user t w messages u).confidence = 90) ∧
    (∀ (t : ℚ) (w : Weights) (u : Option UserInfo) (messages : List Msg),
        100 ≤ messages.length → (analyze_user t w messages u).confidence = 100) := by
  refine ⟨?_, ?_, ?_, ?_⟩
  · intro t1 t2 w1 w2 u1 u2 m1 m2 hlen
    rw [analyze_user_confidence_eq, analyze_user_confidence_eq]
    exact round2_mono (clamp_mono (confidence_of_mono hlen))
  · intro t w u messages hlen
    rw [analyze_user_confidence_eq, hlen]
    norm_num [confidence_of, clamp, round2]
  · intro t w u messages hlen
    rw [analyze_user_confidence_eq, hlen]
    norm_num [confidence_of, clamp, round2]
  · intro t w u messages hlen
    rw [analyze_user_confidence_eq]
    rw [confidence_of, if_pos hlen]
    norm_num [clamp, round2]

/-- The 20-message batch used by the C5 witness. -/
def c5_msgs : List Msg := List.replicate 20 msg0

/-- C5 witness: the confidence contract applied at a concrete 20-message
batch. -/
theorem C5_witness :
    c5_msgs.length = 20 ∧
    (analyze_user 0 default_weights c5_msgs none).confidence = 80 :=
  ⟨by decide, C5_confidence.2.1 0 default_weights none c5_msgs (by decide)⟩

/-! ### C6: the timing composite -/

/-- Three messages at exact 10-second intervals (timestamps 10, 20, 30). -/
def c6_msgs : List Msg :=
  [{ msg0 with created_at := some 10 }, { msg0 with created_at := some 20 },
   { msg0 with created_at := some 30 }]

theorem c6_interval_eval : analyze_interval_regularity c6_msgs = 100 := by
  have h : calc_intervals c6_msgs = [10, 10] := by
    norm_num [calc_intervals, c6_msgs, msg0, extract_timestamp, List.filterMap,
      List.insertionSort, List.orderedInsert]
  rw [analyze_interval_regularity, h]
  norm_num [mean, sample_variance]

theorem c6_reply_eval : analyze_reply_speed c6_msgs = 50 := by
  norm_num [analyze_reply_speed, c6_msgs]

theorem c6_activity_eval : analyze_activity_patterns c6_msgs = 50 := by
  norm_num [analyze_activity_patterns, c6_msgs]

theorem c6_timing_eval : analyze_timing c6_msgs = 70 := by
  have hlen : c6_msgs.length = 3 := rfl
  rw [analyze_timing, hlen, if_neg (by norm_num), c6_interval_eval, c6_reply_eval,
    c6_activity_eval]
  norm_num [min_def, max_def]

/-- C6 counterexample: on three messages at exact 10-second intervals the
interval score is 100 and the reply/activity scores are 50, so the claimed
composite `clamp(0.45*interval + 0.30*reply + 0.25*activity)` would be 72.5,
but `analyze_timing` returns 70 — the source weights are 0.4/0.3/0.3. -/
theorem C6_counterexample :
    analyze_timing c6_msgs ≠
      min (max (0.45 * analyze_interval_regularity c6_msgs +
        0.30 * ((analyze_reply_speed c6_msgs : ℚ) : ℝ) +
        0.25 * ((analyze_activity_patterns c6_msgs : ℚ) : ℝ)) 0) 100 := by
  rw [c6_timing_eval, c6_interval_eval, c6_reply_eval, c6_activity_eval]
  norm_num [min_def, max_def]

/-- C6 amended: for every batch of at least 3 messages the timing sub-score
equals `clamp(0.4*interval + 0.3*replySpeed + 0.3*activityHours)` (weights
0.4/0.3/0.3, not 0.45/0.30/0.25), and with fewer than 3 messages — counted
over all messages, timestamped or not — it equals 50. -/
theorem C6_timing_composite (messages : List Msg) :
    (3 ≤ messages.length →
      analyze_timing messages =
        min (max (0.4 * analyze_interval_regularity messages +
          0.3 * ((analyze_reply_speed messages : ℚ) : ℝ) +
          0.3 * ((analyze_activity_patterns messages : ℚ) : ℝ)) 0) 100) ∧
    (messages.length < 3 → analyze_timing messages = 50) := by
  constructor
  · intro h
    rw [analyze_timing, if_neg (by omega)]
    ring_nf
  · intro h
    rw [analyze_timing, if_pos h]

/-- C6 witness: the amended composite applied at the concrete 3-message
batch. -/
theorem C6_witness :
    3 ≤ c6_msgs.length ∧
    analyze_timing c6_msgs =
      min (max (0.4 * analyze_interval_regularity c6_msgs +
        0.3 * ((analyze_reply_speed c6_msgs : ℚ) : ℝ) +
        0.3 * ((analyze_activity_patterns c6_msgs : ℚ) : ℝ)) 0) 100 :=
  ⟨by decide, (C6_timing_composite c6_msgs).1 (by decide)⟩

/-! ### C7: the reply-speed sub-score -/

/-- Two users mentioning each other at 10-second gaps (no `is_reply` flags). -/
def c7_msgs : List Msg :=
  [{ msg0 with author_id := some (.iv 1), mentions := [.iv 2], created_at := some 100 },
   { msg0 with author_id := some (.iv 2), mentions := [.iv 1], created_at := some 110 },
   { msg0 with author_id := some (.iv 1), mentions := [.iv 2], created_at := some 120 },
   { msg0 with author_id := some (.iv 2), mentions := [], created_at := some 130 }]

/-- C7 counterexample: `_analyze_reply_speed` does not implement the claimed
average-delay curve. On `c7_msgs` (no messages flagged as replies, so the
claimed design yields its no-evidence value 45) the source counts all three
adjacent mention-reply pairs as rapid and returns 100. -/
theorem C7_counterexample : analyze_reply_speed c7_msgs ≠ spec_reply_speed c7_msgs := by
  have h1 : analyze_reply_speed c7_msgs = 100 := by
    norm_num [analyze_reply_speed, reply_pairs, rapid_pairs, c7_msgs, msg0,
      is_reply_to_mention, get_time_difference, extract_timestamp, Uid.truthy,
      List.filter]
  have h2 : spec_reply_speed c7_msgs = 45 := by
    norm_num [spec_reply_speed, c7_msgs, msg0, List.filterMap, List.range,
      List.range.loop]
  rw [h1, h2]
  norm_num

/-- C7 amended: the reply-speed sub-score ignores the explicit reply fields
entirely. With fewer than 4 messages it is 50; otherwise it scans adjacent
pairs whose authors are truthy, distinct and where the second author is
mentioned by the first message; with no such pair it is 50, and otherwise it
is `min(50 + 400 * rapid/total, 100)` where `rapid` counts pairs with a
positive timestamp gap under 30 seconds. -/
theorem C7_reply_speed (messages : List Msg) :
    (messages.length < 4 → analyze_reply_speed messages = 50) ∧
    (4 ≤ messages.length → (reply_pairs messages).length = 0 →
      analyze_reply_speed messages = 50) ∧
    (4 ≤ messages.length → 0 < (reply_pairs messages).length →
      analyze_reply_speed messages =
        min (50 + (((rapid_pairs messages).length : ℚ) /
          (reply_pairs messages).length) * 400) 100) := by
  refine ⟨fun h => ?_, fun h h0 => ?_, fun h h0 => ?_⟩
  · rw [analyze_reply_speed, if_pos h]
  · rw [analyze_reply_speed, if_neg (by omega), if_pos h0]
  · rw [analyze_reply_speed, if_neg (by omega), if_neg (by omega)]

/-- C7 witness: the amended characterization applied at the concrete batch
(`c7_msgs` has 4 messages and 3 reply pairs). -/
theorem C7_witness :
    4 ≤ c7_msgs.length ∧ 0 < (reply_pairs c7_msgs).length ∧
    analyze_reply_speed c7_msgs =
      min (50 + (((rapid_pairs c7_msgs).length : ℚ) /
        (reply_pairs c7_msgs).length) * 400) 100 :=
  ⟨by decide, by decide, (C7_reply_speed c7_msgs).2.2 (by decide) (by decide)⟩

/-! ### C8: the emoji-pattern sub-score -/

/-- Three short emoji-free contents. -/
def c8_contents : List (List Char) := ["hi".toList, "yo".toList, "hey".toList]

theorem c8_eval : analyze_emoji_patterns c8_contents = 75 := by
  have h0 : with_emoji_of c8_contents = 0 := by decide
  rw [analyze_emoji_patterns, if_neg (by decide), h0, if_pos rfl]

/-- C8 counterexample: on three emoji-free contents (fewer than 5 messages,
none containing an emoji) the source returns 75, not the claimed 45 (<5
messages) nor the claimed 55 (no emoji): there is no 5-message minimum branch
and the no-emoji value is 75. -/
theorem C8_counterexample :
    c8_contents.length < 5 ∧ with_emoji_of c8_contents = 0 ∧
    analyze_emoji_patterns c8_contents ≠ 45 ∧
    analyze_emoji_patterns c8_contents ≠ 55 := by
  refine ⟨by decide, by decide, ?_, ?_⟩ <;> rw [c8_eval] <;> norm_num

theorem mean_emoji_pos {contents : List (List Char)} (h : with_emoji_of contents ≠ 0) :
    0 < mean (emoji_counts_of contents) := by
  obtain ⟨x, hx, hx0⟩ : ∃ x ∈ emoji_counts_of contents, 0 < x := by
    by_contra hc
    push_neg at hc
    apply h
    unfold with_emoji_of
    rw [List.length_eq_zero, List.filter_eq_nil_iff]
    intro a ha
    simpa using not_lt.mpr (by simpa using hc a ha)
  have hnonneg : ∀ y ∈ emoji_counts_of contents, (0 : ℚ) ≤ y := by
    intro y hy
    unfold emoji_counts_of at hy
    simp only [List.mem_map] at hy
    obtain ⟨t, ht, rfl⟩ := hy
    positivity
  have hsum : x ≤ (emoji_counts_of contents).sum := List.single_le_sum hnonneg x hx
  have hlen : 0 < (emoji_counts_of contents).length :=
    List.length_pos.mpr (List.ne_nil_of_mem hx)
  unfold mean
  exact div_pos (lt_of_lt_of_le hx0 hsum) (by exact_mod_cast hlen)

/-- C8 amended: the sub-score has no 5-message minimum. On an empty contents
list it is 50; with no emoji anywhere it is 75 (not 55); with emoji present
and at least 3 contents it is 65 when the coefficient of variation of the
per-message emoji counts (zeros included) is below 0.3 and 25 otherwise; with
emoji present in a 1- or 2-content batch it is 35. -/
theorem C8_emoji_patterns (contents : List (List Char)) :
    (contents = [] → analyze_emoji_patterns contents = 50) ∧
    (contents ≠ [] → with_emoji_of contents = 0 →
      analyze_emoji_patterns contents = 75) ∧
    (with_emoji_of contents ≠ 0 → 2 < contents.length →
      analyze_emoji_patterns contents =
        (if sample_variance (emoji_counts_of contents) <
            (0.3 * (mean (emoji_counts_of contents) + 0.1)) ^ 2 then 65 else 25)) ∧
    (with_emoji_of contents ≠ 0 → contents.length ≤ 2 →
      analyze_emoji_patterns contents = 35) := by
  have hlen : (emoji_counts_of contents).length = contents.length :=
    List.length_map contents _
  refine ⟨fun he => ?_, fun hne h0 => ?_, fun h0 hgt => ?_, fun h0 hle => ?_⟩
  · rw [analyze_emoji_patterns, if_pos he]
  · rw [analyze_emoji_patterns, if_neg hne, h0, if_pos rfl]
  · have hne : contents ≠ [] := by
      intro he
      exact h0 (by rw [he]; rfl)
    rw [analyze_emoji_patterns, if_neg hne, if_neg h0, if_pos (by rw [hlen]; exact hgt),
      if_pos (mean_emoji_pos h0)]
  · have hne : contents ≠ [] := by
      intro he
      exact h0 (by rw [he]; rfl)
    rw [analyze_emoji_patterns, if_neg hne, if_neg h0, if_neg (by omega)]

/-- C8 witness: the amended no-emoji branch applied at the concrete contents. -/
theorem C8_witness :
    c8_contents ≠ [] ∧ with_emoji_of c8_contents = 0 ∧
    analyze_emoji_patterns c8_contents = 75 :=
  ⟨by decide, by decide, (C8_emoji_patterns c8_contents).2.1 (by decide) (by decide)⟩

/-! ### C9: the mention-concentration sub-score -/

/-- Five messages from one author, none carrying any mention. -/
def c9_msgs : List Msg :=
  [{ msg0 with author_id := some (.iv 1) }, { msg0 with author_id := some (.iv 1) },
   { msg0 with author_id := some (.iv 1) }, { msg0 with author_id := some (.iv 1) },
   { msg0 with author_id := some (.iv 1) }]

/-- C9 counterexample: on a 5-message batch with no outgoing mentions the
sub-score is 30 — strictly below the neutral 50, not the claimed
above-neutral bot-leaning default. -/
theorem C9_counterexample :
    c9_msgs.length = 5 ∧ (∀ m ∈ c9_msgs, m.mentions = []) ∧
    analyze_mention_patterns c9_msgs = 30 ∧
    ¬ (50 < analyze_mention_patterns c9_msgs) := by
  have h : analyze_mention_patterns c9_msgs = 30 := by
    have h0 : mention_total_of c9_msgs = 0 := by decide
    rw [analyze_mention_patterns, if_pos h0]
  exact ⟨by decide, by decide, h, by rw [h]; norm_num⟩

theorem mention_conc_le_one {messages : List Msg} (h : mention_total_of messages ≠ 0) :
    mention_conc_of messages ≤ 1 := by
  unfold mention_conc_of
  rw [div_le_one (by exact_mod_cast Nat.pos_of_ne_zero h)]
  have hmax : mention_max_of messages ≤ mention_total_of messages := by
    unfold mention_max_of mention_total_of
    have : ∀ ks : List String,
        (ks.map (fun k => (behavior_mention_strs messages).count k)).foldl max 0 ≤
          (behavior_mention_strs messages).length := by
      intro ks
      induction ks with
      | nil => simp
      | cons a t ih =>
        simp only [List.map_cons, List.foldl_cons]
        have hstep : ∀ (l : List ℕ) (b1 b2 : ℕ), b1 ≤ b2 →
            l.foldl max b1 ≤ max b2 (l.foldl max b1) := by
          intro l b1 b2 hb
          exact le_max_right _ _
        have hcount : (behavior_mention_strs messages).count a ≤
            (behavior_mention_strs messages).length := List.count_le_length a _
        have hgen : ∀ (l : List ℕ) (b : ℕ), b ≤ (behavior_mention_strs messages).length →
            (∀ x ∈ l, x ≤ (behavior_mention_strs messages).length) →
            l.foldl max b ≤ (behavior_mention_strs messages).length := by
          intro l
          induction l with
          | nil => intro b hb _; simpa using hb
          | cons x t ihl =>
            intro b hb hall
            simp only [List.foldl_cons]
            exact ihl (max b x) (max_le hb (hall x (by simp)))
              (fun y hy => hall y (by simp [hy]))
        apply hgen
        · exact le_trans (by simp) hcount
        · intro x hx
          simp only [List.mem_map] at hx
          obtain ⟨k, hk, rfl⟩ := hx
          exact List.count_le_length k _
    exact this _
  exact_mod_cast hmax

theorem mention_conc_nonneg (messages : List Msg) : 0 ≤ mention_conc_of messages := by
  unfold mention_conc_of
  positivity

/-- C9 amended: with no outgoing mentions at all the sub-score is the fixed
value 30 (a human-leaning default below neutral, contrary to the claim);
when mentions exist, a most-mentioned-target share above 0.8 yields a score
in [70, 100], a share in (0.5, 0.8] yields a score in [45, 70), and a share
at or below 0.5 yields a score in [10, 40]. -/
theorem C9_mention_concentration (messages : List Msg) :
    (mention_total_of messages = 0 → analyze_mention_patterns messages = 30) ∧
    (mention_total_of messages ≠ 0 → 0.8 < mention_conc_of messages →
      70 ≤ analyze_mention_patterns messages ∧ analyze_mention_patterns messages ≤ 100) ∧
    (mention_total_of messages ≠ 0 → 0.5 < mention_conc_of messages →
      mention_conc_of messages ≤ 0.8 →
      45 ≤ analyze_mention_patterns messages ∧ analyze_mention_patterns messages < 70) ∧
    (mention_total_of messages ≠ 0 → mention_conc_of messages ≤ 0.5 →
      10 ≤ analyze_mention_patterns messages ∧ analyze_mention_patterns messages ≤ 40) := by
  refine ⟨fun h0 => ?_, fun h0 hc => ?_, fun h0 hc1 hc2 => ?_, fun h0 hc => ?_⟩
  · rw [analyze_mention_patterns, if_pos h0]
  · have hle := mention_conc_le_one h0
    rw [analyze_mention_patterns, if_neg h0, if_pos hc]
    unfold clamp
    constructor
    · have h1 : (70 : ℚ) ≤ 70 + (mention_conc_of messages - 0.8) * 300 := by nlinarith
      rcases le_or_lt (70 + (mention_conc_of messages - 0.8) * 300) 100 with hle2 | hle2
      · rw [min_eq_right hle2, max_eq_right (by linarith)]
        exact h1
      · rw [min_eq_left (by linarith), max_eq_right (by norm_num)]
        norm_num
    · exact clamp_le_100 _
  · rw [analyze_mention_patterns, if_neg h0, if_neg (show ¬ (0.8 : ℚ) <
      mention_conc_of messages by linarith), if_pos hc1]
    unfold clamp
    have h1 : (45 : ℚ) ≤ 45 + (mention_conc_of messages - 0.5) * 83 := by nlinarith
    have h2 : 45 + (mention_conc_of messages - 0.5) * 83 < 70 := by nlinarith
    rw [min_eq_right (by linarith), max_eq_right (by linarith)]
    exact ⟨h1, h2⟩
  · have hnn := mention_conc_nonneg messages
    rw [analyze_mention_patterns, if_neg h0, if_neg (by linarith), if_neg (by linarith)]
    constructor
    · exact le_max_left 10 _
    · exact max_le (by norm_num) (by nlinarith)

/-- C9 witness: the no-mention branch applied at the concrete 5-message
batch. -/
theorem C9_witness :
    mention_total_of c9_msgs = 0 ∧ analyze_mention_patterns c9_msgs = 30 :=
  ⟨by decide, (C9_mention_concentration c9_msgs).1 (by decide)⟩

/-! ### C10: the network analyzer keys on `str(id)` -/

/-- Replace an identifier by its string form. -/
def canon_uid (i : Uid) : Uid := .sv i.str

/-- Replace every author/mention identifier of a message by its string form
(the identifiers the network analyzer compares via `str(...)`). -/
def canon_msg (m : Msg) : Msg :=
  { m with author_id := m.author_id.map canon_uid,
           mentions := m.mentions.map canon_uid }

theorem canon_uid_str (i : Uid) : (canon_uid i).str = i.str := rfl

theorem auth_str_canon (m : Msg) : auth_str (canon_msg m) = auth_str m := by
  cases h : m.author_id <;> simp [auth_str, canon_msg, h, canon_uid, Uid.str]

theorem mention_strs_canon (m : Msg) :
    mention_strs (canon_msg m) = mention_strs m := by
  simp only [mention_strs, canon_msg, List.map_map]
  rfl

theorem mentions_nil_canon (m : Msg) :
    ((canon_msg m).mentions = []) ↔ (m.mentions = []) := by
  simp [canon_msg]

theorem filterMap_canon_eq {β : Type*} (f : Msg → Option β)
    (hf : ∀ m, f (canon_msg m) = f m) (messages : List Msg) :
    (messages.map canon_msg).filterMap f = messages.filterMap f := by
  induction messages with
  | nil => rfl
  | cons m t ih => simp only [List.map_cons, List.filterMap_cons, hf m, ih]

theorem foldl_canon_eq {α : Type*} (g : α → Msg → α)
    (hg : ∀ a m, g a (canon_msg m) = g a m) :
    ∀ (messages : List Msg) (a : α),
      (messages.map canon_msg).foldl g a = messages.foldl g a := by
  intro messages
  induction messages with
  | nil => intro a; rfl
  | cons m t ih => intro a; simp only [List.map_cons, List.foldl_cons, hg a m, ih]

theorem filter_canon_comm (p : Msg → Bool) (hp : ∀ m, p (canon_msg m) = p m)
    (messages : List Msg) :
    (messages.map canon_msg).filter p = (messages.filter p).map canon_msg := by
  induction messages with
  | nil => rfl
  | cons m t ih =>
    simp only [List.map_cons, List.filter_cons, hp m, ih]
    by_cases h : p m = true <;> simp [h]

theorem infer_target_canon (messages : List Msg) :
    infer_target_user (messages.map canon_msg) = infer_target_user messages := by
  unfold infer_target_user
  rw [filterMap_canon_eq (fun m => m.author_id.map Uid.str)
    (fun m => by cases h : m.author_id <;> simp [canon_msg, h, canon_uid, Uid.str])]

theorem analyze_reciprocity_canon (messages : List Msg) (t : String) :
    analyze_reciprocity (messages.map canon_msg) t = analyze_reciprocity messages t := by
  unfold analyze_reciprocity
  rw [foldl_canon_eq (reciprocity_step t)
    (fun a m => by
      unfold reciprocity_step
      rw [mention_strs_canon, auth_str_canon])]

theorem analyze_mention_balance_canon (messages : List Msg) (t : String) :
    analyze_mention_balance (messages.map canon_msg) t =
      analyze_mention_balance messages t := by
  simp only [analyze_mention_balance]
  rw [filter_canon_comm (fun m => m.mentions ≠ [])
    (fun m => by simp [canon_msg]), filter_canon_comm (fun m => auth_str m = t)
    (fun m => by simp [auth_str_canon]), filter_canon_comm (fun m => t ∈ mention_strs m)
    (fun m => by simp [mention_strs_canon]), List.map_map, List.length_map]
  have hmap : ∀ l : List Msg,
      l.map ((fun m => (mention_strs m).length) ∘ canon_msg) =
        l.map (fun m => (mention_strs m).length) := by
    intro l
    apply List.map_congr_left
    intro m _
    simp [Function.comp, mention_strs_canon]
  rw [hmap]

theorem channel_tags_canon (messages : List Msg) (t : String) :
    channel_tags (messages.map canon_msg) t = channel_tags messages t := by
  unfold channel_tags
  apply filterMap_canon_eq
  intro m
  have hc : (canon_msg m).channel_id = m.channel_id := rfl
  rw [hc, auth_str_canon]
  cases h : m.channel_id with
  | none => rfl
  | some c => simp [mentions_nil_canon]

theorem analyze_channel_relations_canon (messages : List Msg) (t : String) :
    analyze_channel_relations (messages.map canon_msg) t =
      analyze_channel_relations messages t := by
  unfold analyze_channel_relations
  rw [channel_tags_canon]

theorem analyze_isolation_canon (messages : List Msg) (t : String) :
    analyze_isolation (messages.map canon_msg) t = analyze_isolation messages t := by
  unfold analyze_isolation
  rw [foldl_canon_eq (isolation_step t)
    (fun a m => by
      unfold isolation_step
      rw [mention_strs_canon, auth_str_canon])]

theorem analyze_network_canon (messages : List Msg) (t : Option Uid) :
    analyze_network (messages.map canon_msg) t = analyze_network messages t := by
  unfold analyze_network
  rw [List.length_map, infer_target_canon]
  cases hm : (match t with | some i => some i.str | none => infer_target_user messages) with
  | none => rfl
  | some s =>
    simp only [analyze_reciprocity_canon, analyze_mention_balance_canon,
      analyze_channel_relations_canon, analyze_isolation_canon]

/-- C10: the network analyzer compares all identities after converting them to
strings: any two batches whose messages agree field-for-field once every
author/mention id is replaced by its string form (e.g. the integer 123 versus
the string `"123"`) receive identical network sub-scores, for any (or no)
explicit target. -/
theorem C10_str_invariance (messages1 messages2 : List Msg) (t : Option Uid)
    (h : messages1.map canon_msg = messages2.map canon_msg) :
    analyze_network messages1 t = analyze_network messages2 t := by
  rw [← analyze_network_canon messages1 t, h, analyze_network_canon]

/-- Five messages with integer ids: two users mentioning each other across two
channels. -/
def c10_int_msgs : List Msg :=
  [{ msg0 with author_id := some (.iv 1), mentions := [.iv 2], channel_id := some (.iv 7) },
   { msg0 with author_id := some (.iv 2), mentions := [.iv 1], channel_id := some (.iv 7) },
   { msg0 with author_id := some (.iv 1), mentions := [.iv 2], channel_id := some (.iv 8) },
   { msg0 with author_id := some (.iv 2), mentions := [.iv 1], channel_id := some (.iv 8) },
   { msg0 with author_id := some (.iv 1), mentions := [], channel_id := some (.iv 7) }]

/-- The same batch with every author/mention id given as a string. -/
def c10_str_msgs : List Msg :=
  [{ msg0 with author_id := some (.sv "1"), mentions := [.sv "2"], channel_id := some (.iv 7) },
   { msg0 with author_id := some (.sv "2"), mentions := [.sv "1"], channel_id := some (.iv 7) },
   { msg0 with author_id := some (.sv "1"), mentions := [.sv "2"], channel_id := some (.iv 8) },
   { msg0 with author_id := some (.sv "2"), mentions := [.sv "1"], channel_id := some (.iv 8) },
   { msg0 with author_id := some (.sv "1"), mentions := [], channel_id := some (.iv 7) }]

/-- C10 witness: the invariance applied to a concrete batch written once with
integer ids and once with their string forms. -/
theorem C10_witness :
    analyze_network c10_int_msgs none = analyze_network c10_str_msgs none :=
  C10_str_invariance c10_int_msgs c10_str_msgs none (by decide)
